import Mathlib

/-!
# Verification of the retrieval core of `zweadfx/assist`

Shallow embedding of the retrieval layer of the repository:
* `src/services/rag/shoe_retrieval.py` (`ShoeRetriever`)
* `src/services/rag/rule_retrieval.py` (`RuleRetriever`)
* `src/services/rag/chroma_db.py` (`ChromaDBManager`)

The ChromaDB vector store is an external capability; retrieval functions are
parameterised over the store's query function.  Python exceptions are modelled
with `Except`; the second component of each search result counts how many
store-query invocations the call attempted (0 on the documented empty-input
short-circuits).
-/

namespace Assist

/-! ## Python string primitives

Executable models of the Python `str` operations the retrieval core uses
(`strip`, `lower`, `upper`, `split(",")`, `" ".join`, `int(...)`, `in`),
defined by structural recursion over the character list so that concrete
instances evaluate inside the kernel. -/

/-- Python `str.strip()` (whitespace on both ends). -/
def pyStrip (s : String) : String :=
  ⟨((s.data.dropWhile Char.isWhitespace).reverse.dropWhile Char.isWhitespace).reverse⟩

/-- Python `str.lower()`. -/
def pyLower (s : String) : String := ⟨s.data.map Char.toLower⟩

/-- Python `str.upper()`. -/
def pyUpper (s : String) : String := ⟨s.data.map Char.toUpper⟩

/-- Splitter for Python `str.split(",")`; note `"".split(",") == [""]`. -/
def splitCommaAux : List Char → List Char → List (List Char)
  | [], acc => [acc.reverse]
  | c :: cs, acc =>
      if c = ',' then acc.reverse :: splitCommaAux cs [] else splitCommaAux cs (c :: acc)

/-- Python `str.split(",")`. -/
def pySplitComma (s : String) : List String :=
  (splitCommaAux s.data []).map fun l => ⟨l⟩

/-- Python `" ".join(strs)`. -/
def pyJoinSpace : List String → String
  | [] => ""
  | [s] => s
  | s :: rest => s ++ " " ++ pyJoinSpace rest

/-- Parse a non-empty all-digit character list as a natural number. -/
def parseDigits (l : List Char) : Option Nat :=
  if l.isEmpty then none
  else if l.all Char.isDigit then
    some (l.foldl (fun a c => a * 10 + (c.toNat - 48)) 0)
  else none

/-- Python `int(s)` on a string: strip whitespace, allow an optional sign,
otherwise `ValueError` (`none`). -/
def pyParseInt (s : String) : Option Int :=
  match (pyStrip s).data with
  | '+' :: rest => (parseDigits rest).map Int.ofNat
  | '-' :: rest => (parseDigits rest).map fun n => -(Int.ofNat n : Int)
  | l => (parseDigits l).map Int.ofNat

/-- Does `needle` match the front of `hay`? -/
def matchesAtFront : List Char → List Char → Bool
  | [], _ => true
  | _ :: _, [] => false
  | a :: as, b :: bs => a == b && matchesAtFront as bs

/-- Does `needle` occur as a contiguous run inside `hay`? -/
def containsAux (needle : List Char) : List Char → Bool
  | [] => matchesAtFront needle []
  | c :: cs => matchesAtFront needle (c :: cs) || containsAux needle cs

/-- Python's substring test `needle in hay`. -/
def strContains (hay needle : String) : Bool := containsAux needle.data hay.data

/-! ## Data model -/

/-- Scalar metadata values stored in a Chroma collection (`chroma_db.py` only
ever stores strings and numbers in the metadata maps). -/
inductive MVal where
  | str (s : String)
  | int (n : Int)
deriving DecidableEq, Repr

/-- A metadata map, modelled as an association list of string keys. -/
abbrev Metadata := List (String × MVal)

/-- `metadata.get(key, default)` for general values. -/
def Metadata.getD (md : Metadata) (key : String) (dflt : MVal) : MVal :=
  (List.lookup key md).getD dflt

/-- `metadata.get(key, dflt)` at call sites that immediately use the value as a
string (`tags`, `brand`, `model_name`, `signature_shoes`).  `chroma_db.py`
always writes these keys as strings (lists are comma-joined before storage),
so the stored value, when present, is a string; a non-string value is read as
the default. -/
def Metadata.getStrD (md : Metadata) (key : String) (dflt : String) : String :=
  match List.lookup key md with
  | some (MVal.str s) => s
  | _ => dflt

/-- A `langchain_core.documents.Document` as produced by the retrievers:
`Document(page_content=..., metadata=...)`. -/
structure Doc where
  page_content : String
  metadata : Metadata
deriving DecidableEq, Repr

/-- Python exceptions relevant to the retrieval core. -/
inductive PyError where
  /-- `AttributeError` raised when an undefined attribute is accessed. -/
  | attributeError (name : String)
  /-- `ValueError(msg)` — the wrapper the retrievers raise on failure. -/
  | valueError (msg : String)
  /-- Any exception raised by the external Chroma store during a query. -/
  | storeError (msg : String)
deriving DecidableEq, Repr

/-- The dictionary returned by a Chroma `collection.query` call, restricted to
the keys the retrievers read: parallel lists `documents` and `metadatas`, one
inner list per query text. -/
structure QueryResult where
  documents : List (List String)
  metadatas : List (List Metadata)
deriving DecidableEq, Repr

/-- The type of a store query function
(`query_texts`, `n_results`, `where` ↦ result or exception), the shape shared
by `ChromaDBManager.query_shoes`, `query_players` and the missing
`query_rules` / `query_glossary`. -/
abbrev QueryFn := List String → Nat → Option (List (String × String)) → Except PyError QueryResult

/-- A search outcome: the Python return value (or raised exception) together
with the number of store-query invocations the call attempted. -/
abbrev SearchResult (α : Type) := Except PyError α × Nat

/-- Python `int(x)` on a stored metadata value: integers pass through, strings
are parsed, anything else fails (`ValueError` / `TypeError`, both caught by the
budget filter). -/
def pyInt? : MVal → Option Int
  | MVal.int n => some n
  | MVal.str s => pyParseInt s

/-- Budget post-filter of `search_by_sensory_preferences`
(`shoe_retrieval.py` lines 83–89):

```python
if budget_max_krw:
    try:
        price = int(metadata.get("price_krw", 0))
        if price > budget_max_krw:
            continue
    except (ValueError, TypeError):
        continue
```

`if budget_max_krw:` is a truthiness test: `None` and `0` both skip the
filter. -/
def budgetPass : Option Int → Metadata → Bool
  | none, _ => true
  | some b, md =>
    if b = 0 then true
    else
      match pyInt? (md.getD "price_krw" (MVal.int 0)) with
      | none => false
      | some price => decide (price ≤ b)

/-- Position post-filter of `search_by_sensory_preferences`
(`shoe_retrieval.py` lines 92–118).  `if position:` is a truthiness test, so
`None` and `""` skip the filter; an unknown position string forces
`position_match = True` ("include anyway"). -/
def positionPass : Option String → Metadata → Bool
  | none, _ => true
  | some pos, md =>
    if pos = "" then true
    else
      let tags := pySplitComma (md.getStrD "tags" "")
      let p := pyLower pos
      let m :=
        (p == "guard" &&
          tags.any (fun t => pyStrip t == "가드" || pyStrip t == "로우컷")) ||
        (p == "forward" &&
          tags.any (fun t => pyStrip t == "포워드" || pyStrip t == "미드컷")) ||
        (p == "center" &&
          tags.any (fun t =>
            pyStrip t == "센터" || pyStrip t == "하이컷" || pyStrip t == "빅맨"))
      if !m && !(p == "guard" || p == "forward" || p == "center") then true else m

/-- `ShoeRetriever.search_by_sensory_preferences` (`shoe_retrieval.py`
lines 30–134), parameterised over `ChromaDBManager.query_shoes`'s behaviour.
The loop with `continue` is a stable filter; kept candidates become
`Document(page_content, metadata)` in store order. -/
def search_by_sensory_preferences (query_shoes : QueryFn)
    (sensory_keywords : List String) (budget_max_krw : Option Int)
    (position : Option String) (n_results : Nat) : SearchResult (List Doc) :=
  if sensory_keywords.isEmpty ||
      !(sensory_keywords.any fun k => !(pyStrip k == "")) then
    (Except.ok [], 0)
  else
    let query_text := pyStrip (pyJoinSpace sensory_keywords)
    if query_text = "" then
      (Except.ok [], 0)
    else
      match query_shoes [query_text] n_results none with
      | Except.error _ =>
          (Except.error (PyError.valueError "Failed to retrieve shoes from database"), 1)
      | Except.ok results =>
          if results.documents.isEmpty then (Except.ok [], 1)
          else
            let documents := results.documents.headD []
            let metadatas := results.metadatas.headD []
            let filtered :=
              ((documents.zip metadatas).filter fun cm =>
                  budgetPass budget_max_krw cm.2 && positionPass position cm.2).map
                fun cm => Doc.mk cm.1 cm.2
            (Except.ok filtered, 1)

/-- `ShoeRetriever.search_by_player_archetype` (`shoe_retrieval.py`
lines 136–181), parameterised over `ChromaDBManager.query_players`. -/
def search_by_player_archetype (query_players : QueryFn)
    (player_name : String) (n_results : Nat) : SearchResult (List Doc) :=
  if player_name = "" || pyStrip player_name = "" then
    (Except.ok [], 0)
  else
    match query_players [player_name] n_results none with
    | Except.error _ =>
        (Except.error
          (PyError.valueError "Failed to retrieve player archetypes from database"), 1)
    | Except.ok results =>
        if results.documents.isEmpty then (Except.ok [], 1)
        else
          let documents := results.documents.headD []
          let metadatas := results.metadatas.headD []
          (Except.ok ((documents.zip metadatas).map fun cm => Doc.mk cm.1 cm.2), 1)

/-- The cleaned signature-model list of `_boost_signature_shoes`:
`[model.strip() for model in signature_models if model.strip()]`. -/
def cleanSigs (signature_models : List String) : List String :=
  (signature_models.map pyStrip).filter fun m => !(m == "")

/-- The per-shoe signature test of `_boost_signature_shoes`
(`shoe_retrieval.py` lines 271–281): some signature model name is a
case-insensitive substring of `f"{brand} {model_name}"`. -/
def isSignatureShoe (signature_models : List String) (shoe : Doc) : Bool :=
  let model_name := shoe.metadata.getStrD "model_name" ""
  let brand := shoe.metadata.getStrD "brand" ""
  signature_models.any fun sig =>
    strContains (pyLower (brand ++ " " ++ model_name)) (pyLower sig)

/-- The accumulation loop of `_boost_signature_shoes`: each shoe is appended
to `signature_shoes` or `other_shoes`, preserving input order within each. -/
def boostPartition (isSig : Doc → Bool) : List Doc → List Doc × List Doc
  | [] => ([], [])
  | shoe :: rest =>
      let p := boostPartition isSig rest
      if isSig shoe then (shoe :: p.1, p.2) else (p.1, shoe :: p.2)

/-- `ShoeRetriever._boost_signature_shoes` (`shoe_retrieval.py`
lines 249–288). -/
def boost_signature_shoes (shoes : List Doc) (signature_models : List String) :
    List Doc :=
  if signature_models.isEmpty then shoes
  else
    let p := boostPartition (isSignatureShoe (cleanSigs signature_models)) shoes
    p.1 ++ p.2

/-- `ShoeRetriever.cross_analysis_search` (`shoe_retrieval.py` lines 183–247),
parameterised over the two store query functions.  The Python result is the
dict `{"shoes": ..., "players": ...}`, modelled as an association list; an
exception from either sub-search propagates (there is no `try` here). -/
def cross_analysis_search (query_shoes query_players : QueryFn)
    (sensory_keywords : List String) (player_archetype : Option String)
    (budget_max_krw : Option Int) (position : Option String) (n_shoes : Nat) :
    SearchResult (List (String × List Doc)) :=
  match search_by_sensory_preferences query_shoes sensory_keywords budget_max_krw
      position 15 with
  | (Except.error e, c) => (Except.error e, c)
  | (Except.ok shoes, c1) =>
      match player_archetype with
      | none => (Except.ok [("shoes", shoes.take n_shoes), ("players", [])], c1)
      | some name =>
          if name = "" then
            (Except.ok [("shoes", shoes.take n_shoes), ("players", [])], c1)
          else
            match search_by_player_archetype query_players name 3 with
            | (Except.error e, c2) => (Except.error e, c1 + c2)
            | (Except.ok players, c2) =>
                let shoes2 :=
                  match players with
                  | [] => shoes
                  | p0 :: _ =>
                      boost_signature_shoes shoes
                        (pySplitComma (p0.metadata.getStrD "signature_shoes" ""))
                (Except.ok [("shoes", shoes2.take n_shoes), ("players", players)],
                  c1 + c2)

/-- The `where` filter built by `RuleRetriever.search_by_situation`
(`rule_retrieval.py` lines 55–57): `{"rule_type": rule_type.upper()}` when
`rule_type` is truthy, else `None`. -/
def ruleWhere : Option String → Option (List (String × String))
  | none => none
  | some rt => if rt = "" then none else some [("rule_type", pyUpper rt)]

/-- `RuleRetriever.search_by_situation` (`rule_retrieval.py` lines 31–82),
parameterised over the behaviour of the `chroma_manager.query_rules` call
site. -/
def search_by_situation (query_rules : QueryFn) (situation : String)
    (rule_type : Option String) (n_results : Nat) : SearchResult (List Doc) :=
  if situation = "" || pyStrip situation = "" then
    (Except.ok [], 0)
  else
    match query_rules [situation] n_results (ruleWhere rule_type) with
    | Except.error _ =>
        (Except.error (PyError.valueError "Failed to retrieve rules from database"), 1)
    | Except.ok results =>
        if results.documents.isEmpty then (Except.ok [], 1)
        else
          let documents := results.documents.headD []
          let metadatas := results.metadatas.headD []
          (Except.ok ((documents.zip metadatas).map fun cm => Doc.mk cm.1 cm.2), 1)

/-- The `where` filter built by `RuleRetriever.search_glossary_terms`
(`rule_retrieval.py` lines 108–110): `{"category": category}` when truthy. -/
def glossaryWhere : Option String → Option (List (String × String))
  | none => none
  | some cat => if cat = "" then none else some [("category", cat)]

/-- `RuleRetriever.search_glossary_terms` (`rule_retrieval.py` lines 84–135),
parameterised over the behaviour of the `chroma_manager.query_glossary` call
site. -/
def search_glossary_terms (query_glossary : QueryFn) (query : String)
    (category : Option String) (n_results : Nat) : SearchResult (List Doc) :=
  if query = "" || pyStrip query = "" then
    (Except.ok [], 0)
  else
    match query_glossary [query] n_results (glossaryWhere category) with
    | Except.error _ =>
        (Except.error
          (PyError.valueError "Failed to retrieve glossary terms from database"), 1)
    | Except.ok results =>
        if results.documents.isEmpty then (Except.ok [], 1)
        else
          let documents := results.documents.headD []
          let metadatas := results.metadatas.headD []
          (Except.ok ((documents.zip metadatas).map fun cm => Doc.mk cm.1 cm.2), 1)

/-- `RuleRetriever.hybrid_search` (`rule_retrieval.py` lines 137–184).  The
Python result is the dict `{"rules": ..., "glossary": ...}` (both keys created
up front), modelled as an association list; the glossary sub-search reuses the
situation text as its query, and an exception from either sub-search
propagates (there is no `try` here). -/
def hybrid_search (query_rules query_glossary : QueryFn) (situation : String)
    (rule_type : Option String) (n_rules n_glossary : Nat) :
    SearchResult (List (String × List Doc)) :=
  match search_by_situation query_rules situation rule_type n_rules with
  | (Except.error e, c) => (Except.error e, c)
  | (Except.ok rules, c1) =>
      match search_glossary_terms query_glossary situation none n_glossary with
      | (Except.error e, c2) => (Except.error e, c1 + c2)
      | (Except.ok glossary, c2) =>
          (Except.ok [("rules", rules), ("glossary", glossary)], c1 + c2)

/-- `ChromaDBManager` (`chroma_db.py`) defines add/query methods only for the
drills, shoes and players collections; **no `query_rules` method exists**.
The attribute access `self.chroma_manager.query_rules` at
`rule_retrieval.py:59` therefore raises `AttributeError` before any store
interaction; the surrounding `except Exception` catches it. -/
def chromaQueryRules : QueryFn := fun _ _ _ =>
  Except.error (PyError.attributeError "query_rules")

/-- `ChromaDBManager` (`chroma_db.py`) defines **no `query_glossary` method**;
the attribute access at `rule_retrieval.py:112` raises `AttributeError`. -/
def chromaQueryGlossary : QueryFn := fun _ _ _ =>
  Except.error (PyError.attributeError "query_glossary")

/-- Does a candidate's metadata satisfy an exact-match `where` predicate map
(every key present with exactly the given string value)? -/
def matchesWhere (w : Option (List (String × String))) (md : Metadata) : Bool :=
  match w with
  | none => true
  | some kvs => kvs.all fun kv => List.lookup kv.1 md == some (MVal.str kv.2)

/-- Package a ranked candidate list as a Chroma query reply (parallel
`documents` / `metadatas` lists, one inner list for the single query text). -/
def mkQueryResult (cands : List (String × Metadata)) : QueryResult :=
  ⟨[cands.map Prod.fst], [cands.map Prod.snd]⟩

/-- Modelled from the spec: the Document Store query operation that the
missing `ChromaDBManager.query_rules` / `query_glossary` would delegate to.
Spec §2/§6: the store returns ranked candidates for a query text, at most
`n_results` of them, "optionally pre-filtered by exact-match metadata
predicates" — the equality predicate restricts the candidate set before the
top-`n` cut, similarity order preserved.  `ranked` is the store's full
similarity ranking for each query text. -/
def specStoreQuery (ranked : String → List (String × Metadata)) : QueryFn :=
  fun query_texts n_results whereFilter =>
    let q := query_texts.headD ""
    Except.ok
      (mkQueryResult
        (((ranked q).filter fun c => matchesWhere whereFilter c.2).take n_results))

/-- The Document Store contract a real store query obeys (spec §2/§6): at most
`n_results` candidates per query, `documents` and `metadatas` parallel. -/
def HonorsLimit (qf : QueryFn) : Prop :=
  ∀ qts n w r, qf qts n w = Except.ok r →
    (r.documents.headD []).length ≤ n ∧
    (r.metadatas.headD []).length = (r.documents.headD []).length

/-! ## Concrete stores and records used to instantiate the theorems -/

/-- Metadata of a catalog entry with no `price_krw` field at all. -/
def noPriceMeta : Metadata :=
  [("brand", MVal.str "Nike"), ("model_name", MVal.str "GT Cut 3")]

/-- A store whose (non-empty) catalog contains one candidate without a price
field. -/
def noPriceStore : QueryFn := specStoreQuery fun _ => [("nike shoe", noPriceMeta)]

/-- Metadata of a normally priced catalog entry. -/
def pricedMeta : Metadata := [("price_krw", MVal.int 150000)]

/-- A store whose catalog is one candidate priced 150000. -/
def pricedStore : QueryFn := specStoreQuery fun _ => [("shoe1", pricedMeta)]

/-- Metadata of a guard-tagged, priced catalog entry. -/
def guardMeta : Metadata :=
  [("tags", MVal.str "가드,로우컷"), ("price_krw", MVal.int 139000)]

/-- A shoe store whose catalog is one guard-tagged candidate. -/
def wShoeStore : QueryFn := specStoreQuery fun _ => [("shoe1", guardMeta)]

/-- Metadata of a player archetype with a signature-shoe list. -/
def wPlayerMeta : Metadata :=
  [("name", MVal.str "Stephen Curry"),
   ("signature_shoes", MVal.str "Curry 11,Curry 12")]

/-- A player store whose catalog is one archetype. -/
def wPlayerStore : QueryFn := specStoreQuery fun _ => [("curry", wPlayerMeta)]

/-- A rules ranking with one FIBA and one NBA article. -/
def rulesRanked : String → List (String × Metadata) := fun _ =>
  [("r1", [("rule_type", MVal.str "FIBA")]), ("r2", [("rule_type", MVal.str "NBA")])]

/-- A store whose every query raises. -/
def failingStore : QueryFn := fun _ _ _ =>
  Except.error (PyError.storeError "connection refused")

/-! ## Helper lemmas -/

theorem boostPartition_eq (p : Doc → Bool) (l : List Doc) :
    boostPartition p l = (l.filter p, l.filter fun x => !p x) := by
  induction l with
  | nil => rfl
  | cons d rest ih =>
      simp only [boostPartition, ih, List.filter_cons]
      cases hd : p d <;> simp [hd]

/-- `_boost_signature_shoes` is the stable two-way partition by the cleaned
signature match, matches first. -/
theorem boost_eq_filters (shoes : List Doc) (sigs : List String) :
    boost_signature_shoes shoes sigs =
      shoes.filter (isSignatureShoe (cleanSigs sigs)) ++
        shoes.filter fun d => !isSignatureShoe (cleanSigs sigs) d := by
  unfold boost_signature_shoes
  by_cases hs : sigs.isEmpty
  · have hnil : sigs = [] := List.isEmpty_iff.mp hs
    subst hnil
    have hfalse : ∀ d, isSignatureShoe (cleanSigs []) d = false := fun d => rfl
    simp [hfalse]
  · simp [hs, boostPartition_eq]

theorem boost_perm (shoes : List Doc) (sigs : List String) :
    (boost_signature_shoes shoes sigs).Perm shoes := by
  rw [boost_eq_filters]
  exact List.filter_append_perm _ shoes

theorem boost_idem (shoes : List Doc) (sigs : List String) :
    boost_signature_shoes (boost_signature_shoes shoes sigs) sigs =
      boost_signature_shoes shoes sigs := by
  rw [boost_eq_filters, boost_eq_filters shoes]
  simp only [List.filter_append, List.filter_filter]
  simp

/-- Every document a successful sensory search returns passed both
post-filters. -/
theorem sensory_mem_filters (qf : QueryFn) (kws : List String) (b : Option Int)
    (pos : Option String) (n : Nat) (docs : List Doc)
    (h : (search_by_sensory_preferences qf kws b pos n).1 = Except.ok docs) :
    ∀ d ∈ docs, budgetPass b d.metadata = true ∧ positionPass pos d.metadata = true := by
  unfold search_by_sensory_preferences at h
  split at h
  · simp only at h
    cases h
    intro d hd
    cases hd
  · dsimp only at h
    split at h
    · simp only at h
      cases h
      intro d hd
      cases hd
    · split at h
      · cases h
      · rename_i results _
        split at h
        · simp only at h
          cases h
          intro d hd
          cases hd
        · simp only at h
          cases h
          intro d hd
          obtain ⟨cm, hcm, rfl⟩ := List.mem_map.mp hd
          have := List.of_mem_filter hcm
          simpa using this

/-- A successful sensory search is either the empty-input short-circuit or the
filtered image of the store's reply to the joined query. -/
theorem sensory_ok_decomp (qf : QueryFn) (kws : List String) (b : Option Int)
    (pos : Option String) (n : Nat) (docs : List Doc)
    (h : (search_by_sensory_preferences qf kws b pos n).1 = Except.ok docs) :
    docs = [] ∨
      ∃ r : QueryResult, qf [pyStrip (pyJoinSpace kws)] n none = Except.ok r ∧
        docs = (((r.documents.headD []).zip (r.metadatas.headD [])).filter fun cm =>
            budgetPass b cm.2 && positionPass pos cm.2).map fun cm => Doc.mk cm.1 cm.2 := by
  unfold search_by_sensory_preferences at h
  split at h
  · simp only at h
    cases h
    exact Or.inl rfl
  · dsimp only at h
    split at h
    · simp only at h
      cases h
      exact Or.inl rfl
    · split at h
      · cases h
      · rename_i results hq
        split at h
        · simp only at h
          cases h
          exact Or.inl rfl
        · simp only at h
          cases h
          exact Or.inr ⟨results, hq, rfl⟩

/-- A candidate passing the active budget filter has an integer-parsing price
(missing price read as `0`) at most the ceiling. -/
theorem budgetPass_some (b : Int) (hb : b ≠ 0) (md : Metadata)
    (h : budgetPass (some b) md = true) :
    ∃ p : Int, pyInt? (md.getD "price_krw" (MVal.int 0)) = some p ∧ p ≤ b := by
  simp only [budgetPass] at h
  rw [if_neg hb] at h
  split at h
  · cases h
  · rename_i p hp
    exact ⟨p, hp, by simpa using h⟩

/-- The tag keyword set the position filter requires for each known
position. -/
def positionTagKeywords (p : String) : List String :=
  if p = "guard" then ["가드", "로우컷"]
  else if p = "forward" then ["포워드", "미드컷"]
  else if p = "center" then ["센터", "하이컷", "빅맨"]
  else []

/-- For a known position, passing the position filter means some stored tag,
stripped, is one of that position's keywords. -/
theorem positionPass_known (pos : String) (md : Metadata)
    (hknown : pyLower pos = "guard" ∨ pyLower pos = "forward" ∨ pyLower pos = "center")
    (h : positionPass (some pos) md = true) :
    ∃ t ∈ pySplitComma (md.getStrD "tags" ""),
      pyStrip t ∈ positionTagKeywords (pyLower pos) := by
  have hposne : ¬pos = "" := by
    intro he
    subst he
    rcases hknown with h' | h' | h' <;> exact absurd h' (by decide)
  simp only [positionPass] at h
  rw [if_neg hposne] at h
  split at h
  · rename_i hcond
    exfalso
    rw [Bool.and_eq_true] at hcond
    have h2 := hcond.2
    rcases hknown with h' | h' | h' <;> simp [h'] at h2
  · rcases hknown with h' | h' | h'
    · rw [h'] at h ⊢
      simp at h
      obtain ⟨t, ht, hkw⟩ := h
      refine ⟨t, ht, ?_⟩
      rw [show positionTagKeywords "guard" = ["가드", "로우컷"] from rfl]
      simp only [List.mem_cons, List.not_mem_nil]
      tauto
    · rw [h'] at h ⊢
      simp at h
      obtain ⟨t, ht, hkw⟩ := h
      refine ⟨t, ht, ?_⟩
      rw [show positionTagKeywords "forward" = ["포워드", "미드컷"] from rfl]
      simp only [List.mem_cons, List.not_mem_nil]
      tauto
    · rw [h'] at h ⊢
      simp at h
      obtain ⟨t, ht, hkw⟩ := h
      refine ⟨t, ht, ?_⟩
      rw [show positionTagKeywords "center" = ["센터", "하이컷", "빅맨"] from rfl]
      simp only [List.mem_cons, List.not_mem_nil]
      tauto

/-- For an unknown (or empty) position string the position filter passes every
candidate. -/
theorem positionPass_unknown (pos : String)
    (hunknown : ¬(pyLower pos = "guard" ∨ pyLower pos = "forward" ∨
      pyLower pos = "center")) :
    ∀ md, positionPass (some pos) md = true := by
  intro md
  push_neg at hunknown
  obtain ⟨hg, hf, hc⟩ := hunknown
  simp only [positionPass]
  split
  · rfl
  · have hm : ∀ t1 t2 t3 : Bool,
        ((pyLower pos == "guard" && t1) || (pyLower pos == "forward" && t2) ||
          (pyLower pos == "center" && t3)) = false := by
      intro t1 t2 t3
      simp [hg, hf, hc]
    have h3 : (pyLower pos == "guard" || pyLower pos == "forward" ||
        pyLower pos == "center") = false := by
      simp [hg, hf, hc]
    simp only [hm, h3]
    simp

/-- A successful player-archetype search under a contract-conforming store
returns at most `n_results` documents. -/
theorem player_search_len (qp : QueryFn) (hqp : HonorsLimit qp) (nm : String)
    (n : Nat) (players : List Doc)
    (h : (search_by_player_archetype qp nm n).1 = Except.ok players) :
    players.length ≤ n := by
  unfold search_by_player_archetype at h
  split at h
  · simp only at h
    cases h
    simp
  · split at h
    · cases h
    · rename_i results hq
      split at h
      · simp only at h
        cases h
        simp
      · simp only at h
        cases h
        obtain ⟨hlen, hpar⟩ := hqp [nm] n none results hq
        have hz : ((results.documents.headD []).zip
            (results.metadatas.headD [])).length ≤ (results.documents.headD []).length := by
          rw [List.length_zip]
          exact min_le_left _ _
        simpa using le_trans hz hlen

/-- A successful cross-analysis result decomposes into: the sensory pool of
the 15-candidate sub-search, a permutation of it (the boost), truncated to
`n_shoes`, and the player list (from the archetype sub-search when one was
requested and found). -/
theorem cross_ok_decomp (qs qp : QueryFn) (kws : List String)
    (pa : Option String) (b : Option Int) (pos : Option String) (n_shoes : Nat)
    (m : List (String × List Doc))
    (h : (cross_analysis_search qs qp kws pa b pos n_shoes).1 = Except.ok m) :
    ∃ (pool l players : List Doc),
      (search_by_sensory_preferences qs kws b pos 15).1 = Except.ok pool ∧
      l.Perm pool ∧
      m = [("shoes", l.take n_shoes), ("players", players)] ∧
      (players = [] ∨
        ∃ nm, pa = some nm ∧ nm ≠ "" ∧
          (search_by_player_archetype qp nm 3).1 = Except.ok players) := by
  unfold cross_analysis_search at h
  split at h
  · cases h
  · rename_i shoes c1 hshoes
    have hpool : (search_by_sensory_preferences qs kws b pos 15).1 = Except.ok shoes := by
      rw [hshoes]
    split at h
    · simp only at h
      cases h
      exact ⟨shoes, shoes, [], hpool, List.Perm.refl shoes, rfl, Or.inl rfl⟩
    · rename_i name
      split at h
      · simp only at h
        cases h
        exact ⟨shoes, shoes, [], hpool, List.Perm.refl shoes, rfl, Or.inl rfl⟩
      · rename_i hname
        split at h
        · cases h
        · rename_i players c2 hplayers
          have hpl : (search_by_player_archetype qp name 3).1 = Except.ok players := by
            rw [hplayers]
          simp only at h
          split at h
          · cases h
            exact ⟨shoes, shoes, [], hpool, List.Perm.refl shoes, rfl, Or.inl rfl⟩
          · rename_i hd tl
            cases h
            exact ⟨shoes,
              boost_signature_shoes shoes
                (pySplitComma (hd.metadata.getStrD "signature_shoes" "")),
              hd :: tl, hpool, boost_perm _ _, rfl, Or.inr ⟨name, rfl, hname, hpl⟩⟩

/-- The spec-modelled store honors the Document Store contract. -/
theorem specStoreQuery_honors (ranked : String → List (String × Metadata)) :
    HonorsLimit (specStoreQuery ranked) := by
  intro qts n w r h
  simp only [specStoreQuery, mkQueryResult] at h
  cases h
  constructor
  · simp only [List.headD_cons, List.length_map]
    exact List.length_take_le n _
  · simp

/-! ## Claim theorems -/

/-- **C4.** For every input shoe sequence and signature-model list, the
signature boost is a stable two-way partition: the output is a permutation of
the input with unchanged membership; the candidates whose brand+model string
case-insensitively contains some signature model substring come first in their
original relative order (the first `filter`), followed by the rest in their
original relative order (the second `filter`); and applying the boost twice
with the same signature list yields the same output as applying it once. -/
theorem c4_boost_stable_partition_idempotent (shoes : List Doc) (sigs : List String) :
    (boost_signature_shoes shoes sigs).Perm shoes ∧
    boost_signature_shoes shoes sigs =
      shoes.filter (isSignatureShoe (cleanSigs sigs)) ++
        shoes.filter (fun d => !isSignatureShoe (cleanSigs sigs) d) ∧
    boost_signature_shoes (boost_signature_shoes shoes sigs) sigs =
      boost_signature_shoes shoes sigs :=
  ⟨boost_perm shoes sigs, boost_eq_filters shoes sigs, boost_idem shoes sigs⟩

/-- **C10.** A call with `budget_max_krw = 0` behaves exactly like a call with
no budget ceiling at all — the truthiness test `if budget_max_krw:` disables
the budget filter for a zero ceiling — both for
`search_by_sensory_preferences` and for `cross_analysis_search`. -/
theorem c10_zero_budget_disables_filter (qs qp : QueryFn) (kws : List String)
    (pa : Option String) (pos : Option String) (n n_shoes : Nat) :
    search_by_sensory_preferences qs kws (some 0) pos n =
      search_by_sensory_preferences qs kws none pos n ∧
    cross_analysis_search qs qp kws pa (some 0) pos n_shoes =
      cross_analysis_search qs qp kws pa none pos n_shoes := by
  have hbp : budgetPass (some 0) = budgetPass none := by
    funext md
    rfl
  have hs : ∀ (qf : QueryFn) (kws : List String) (pos : Option String) (n : Nat),
      search_by_sensory_preferences qf kws (some 0) pos n =
        search_by_sensory_preferences qf kws none pos n := by
    intro qf kws pos n
    unfold search_by_sensory_preferences
    rw [hbp]
  refine ⟨hs qs kws pos n, ?_⟩
  unfold cross_analysis_search
  rw [hs]

/-- **C3.** For every non-empty, non-whitespace situation (resp. query),
`search_by_situation` and `search_glossary_terms`, as wired to the shared
`ChromaDBManager` (which defines no `query_rules` or `query_glossary`
operation), always raise the wrapped retrieval-failure `ValueError` and never
return a result; consequently `hybrid_search` with a non-empty situation
always fails. -/
theorem c3_rule_retrieval_always_fails (sit : String) (hsit : pyStrip sit ≠ "")
    (rt cat : Option String) (n1 n2 nr ng : Nat) :
    (search_by_situation chromaQueryRules sit rt n1).1 =
      Except.error (PyError.valueError "Failed to retrieve rules from database") ∧
    (search_glossary_terms chromaQueryGlossary sit cat n2).1 =
      Except.error
        (PyError.valueError "Failed to retrieve glossary terms from database") ∧
    (hybrid_search chromaQueryRules chromaQueryGlossary sit rt nr ng).1 =
      Except.error (PyError.valueError "Failed to retrieve rules from database") := by
  have h1 : sit ≠ "" := by
    intro he
    apply hsit
    rw [he]
    rfl
  have hcond : ¬((decide (sit = "") || decide (pyStrip sit = "")) = true) := by
    simp only [Bool.or_eq_true, decide_eq_true_eq]
    rintro (he | he)
    · exact h1 he
    · exact hsit he
  have hrule : search_by_situation chromaQueryRules sit rt n1 =
      (Except.error (PyError.valueError "Failed to retrieve rules from database"), 1) := by
    unfold search_by_situation
    rw [if_neg hcond]
    rfl
  have hrule' : search_by_situation chromaQueryRules sit rt nr =
      (Except.error (PyError.valueError "Failed to retrieve rules from database"), 1) := by
    unfold search_by_situation
    rw [if_neg hcond]
    rfl
  have hglos : search_glossary_terms chromaQueryGlossary sit cat n2 =
      (Except.error
        (PyError.valueError "Failed to retrieve glossary terms from database"), 1) := by
    unfold search_glossary_terms
    rw [if_neg hcond]
    rfl
  refine ⟨by rw [hrule], by rw [hglos], ?_⟩
  unfold hybrid_search
  rw [hrule']

/-- **C6.** For every empty or whitespace-only input (sensory keyword list,
player name, situation, glossary query), the corresponding search operation
returns an empty sequence without raising and without issuing any store query
(call count 0); in particular `hybrid_search("")` returns
`{"rules": [], "glossary": []}` with no store call. -/
theorem c6_empty_input_short_circuit (qs qp qr qg : QueryFn)
    (kws : List String) (hk : ∀ k ∈ kws, pyStrip k = "")
    (nm : String) (hn : pyStrip nm = "")
    (sit : String) (hs : pyStrip sit = "")
    (q : String) (hq : pyStrip q = "")
    (b : Option Int) (pos : Option String) (rt cat : Option String)
    (n1 n2 n3 n4 nr ng : Nat) :
    search_by_sensory_preferences qs kws b pos n1 = (Except.ok [], 0) ∧
    search_by_player_archetype qp nm n2 = (Except.ok [], 0) ∧
    search_by_situation qr sit rt n3 = (Except.ok [], 0) ∧
    search_glossary_terms qg q cat n4 = (Except.ok [], 0) ∧
    hybrid_search qr qg "" rt nr ng =
      (Except.ok [("rules", []), ("glossary", [])], 0) := by
  refine ⟨?_, ?_, ?_, ?_, ?_⟩
  · have hany : (kws.any fun k => !(pyStrip k == "")) = false := by
      rw [List.any_eq_false]
      intro k hkmem
      simp [hk k hkmem]
    unfold search_by_sensory_preferences
    simp [hany]
  · unfold search_by_player_archetype
    simp [hn]
  · unfold search_by_situation
    simp [hs]
  · unfold search_glossary_terms
    simp [hq]
  · rfl

/-- Witness for C6 at concrete whitespace-only inputs, against a store whose
every query would raise (so success shows no query was issued). -/
theorem c6_empty_input_short_circuit_witness :
    (∀ k ∈ ([" ", ""] : List String), pyStrip k = "") ∧
    pyStrip "\t" = "" ∧ pyStrip " " = "" ∧ pyStrip "" = "" ∧
    (search_by_sensory_preferences failingStore [" ", ""] (some 250000) none 10 =
        (Except.ok [], 0) ∧
      search_by_player_archetype failingStore "\t" 3 = (Except.ok [], 0) ∧
      search_by_situation failingStore " " (some "FIBA") 5 = (Except.ok [], 0) ∧
      search_glossary_terms failingStore "" none 3 = (Except.ok [], 0) ∧
      hybrid_search failingStore failingStore "" (some "FIBA") 5 3 =
        (Except.ok [("rules", []), ("glossary", [])], 0)) :=
  ⟨by decide, by decide, by decide, by decide,
    c6_empty_input_short_circuit failingStore failingStore failingStore failingStore
      [" ", ""] (by decide) "\t" (by decide) " " (by decide) "" (by decide)
      (some 250000) none (some "FIBA") none 10 3 5 3 5 3⟩

/-- Witness for C3 at a concrete non-whitespace situation. -/
theorem c3_rule_retrieval_always_fails_witness :
    pyStrip "트래블링 판정" ≠ "" ∧
    ((search_by_situation chromaQueryRules "트래블링 판정" none 5).1 =
        Except.error (PyError.valueError "Failed to retrieve rules from database") ∧
      (search_glossary_terms chromaQueryGlossary "트래블링 판정" none 3).1 =
        Except.error
          (PyError.valueError "Failed to retrieve glossary terms from database") ∧
      (hybrid_search chromaQueryRules chromaQueryGlossary "트래블링 판정" none 5 3).1 =
        Except.error (PyError.valueError "Failed to retrieve rules from database")) :=
  ⟨by decide,
    c3_rule_retrieval_always_fails "트래블링 판정" (by decide) none none 5 3 5 3⟩

/-- **C2.** For every call to `search_by_situation` with a non-empty situation
and `rule_type = R` supplied, the equality filter `{rule_type: upper(R)}` is
passed down to the store's query predicate — the result is exactly the store's
pre-filtered ranked reply, with no in-process post-filtering — so every
returned rule candidate's `rule_type` metadata equals `R` upper-cased.
(The store side is modelled from the spec, see `specStoreQuery`.) -/
theorem c2_rule_type_pushdown (ranked : String → List (String × Metadata))
    (sit : String) (R : String) (hR : R ≠ "") (n : Nat) (docs : List Doc)
    (h : (search_by_situation (specStoreQuery ranked) sit (some R) n).1 =
      Except.ok docs) :
    (∀ d ∈ docs, List.lookup "rule_type" d.metadata = some (MVal.str (pyUpper R))) ∧
    (pyStrip sit ≠ "" →
      docs = (((ranked sit).filter fun c =>
          matchesWhere (some [("rule_type", pyUpper R)]) c.2).take n).map
        fun c => Doc.mk c.1 c.2) := by
  have hw : ruleWhere (some R) = some [("rule_type", pyUpper R)] := by
    simp only [ruleWhere]
    rw [if_neg hR]
  unfold search_by_situation at h
  split at h
  · rename_i hc
    simp only at h
    cases h
    refine ⟨fun d hd => absurd hd (List.not_mem_nil d), fun hsit => ?_⟩
    exfalso
    simp only [Bool.or_eq_true, decide_eq_true_eq] at hc
    rcases hc with he | he
    · exact hsit (by rw [he]; rfl)
    · exact hsit he
  · rw [hw] at h
    simp only [specStoreQuery, mkQueryResult] at h
    split at h
    · rename_i hemp
      cases hemp
    · simp only [List.headD_cons] at h
      cases h
      have hzip :
          ((((ranked sit).filter fun c =>
              matchesWhere (some [("rule_type", pyUpper R)]) c.2).take n).map
                Prod.fst).zip
            ((((ranked sit).filter fun c =>
              matchesWhere (some [("rule_type", pyUpper R)]) c.2).take n).map
                Prod.snd) =
          (((ranked sit).filter fun c =>
            matchesWhere (some [("rule_type", pyUpper R)]) c.2).take n).map
              fun c => (c.1, c.2) := by
        rw [List.zip_map']
      constructor
      · intro d hd
        rw [hzip, List.map_map] at hd
        obtain ⟨c, hc, rfl⟩ := List.mem_map.mp hd
        have hcw := List.of_mem_filter (List.mem_of_mem_take hc)
        simp only [matchesWhere, List.all_cons, List.all_nil, Bool.and_true,
          beq_iff_eq] at hcw
        simpa using hcw
      · intro _
        rw [hzip, List.map_map]
        rfl

/-- Witness for C2 at a concrete situation, rule type and two-article
ranking. -/
theorem c2_rule_type_pushdown_witness :
    ("fiba" : String) ≠ "" ∧
    (search_by_situation (specStoreQuery rulesRanked) "트래블링" (some "fiba") 5).1 =
      Except.ok [Doc.mk "r1" [("rule_type", MVal.str "FIBA")]] ∧
    ((∀ d ∈ [Doc.mk "r1" [("rule_type", MVal.str "FIBA")]],
        List.lookup "rule_type" d.metadata = some (MVal.str (pyUpper "fiba"))) ∧
      (pyStrip "트래블링" ≠ "" →
        [Doc.mk "r1" [("rule_type", MVal.str "FIBA")]] =
          (((rulesRanked "트래블링").filter fun c =>
              matchesWhere (some [("rule_type", pyUpper "fiba")]) c.2).take 5).map
            fun c => Doc.mk c.1 c.2)) :=
  ⟨by decide, by rfl,
    c2_rule_type_pushdown rulesRanked "트래블링" "fiba" (by decide) 5
      [Doc.mk "r1" [("rule_type", MVal.str "FIBA")]] (by rfl)⟩

/-- **C7.** With a position supplied: if the (lower-cased) position is one of
guard/forward/center, every returned candidate has at least one stored tag,
stripped, in that position's fixed keyword set; otherwise the position filter
is not enforced and the search behaves exactly as if no position had been
supplied (passes-open policy). -/
theorem c7_position_filter_passes_open (qf : QueryFn) (kws : List String)
    (b : Option Int) (pos : String) (n : Nat) (docs : List Doc)
    (h : (search_by_sensory_preferences qf kws b (some pos) n).1 = Except.ok docs) :
    ((pyLower pos = "guard" ∨ pyLower pos = "forward" ∨ pyLower pos = "center") →
      ∀ d ∈ docs, ∃ t ∈ pySplitComma (d.metadata.getStrD "tags" ""),
        pyStrip t ∈ positionTagKeywords (pyLower pos)) ∧
    (¬(pyLower pos = "guard" ∨ pyLower pos = "forward" ∨ pyLower pos = "center") →
      ∀ (b' : Option Int) (n' : Nat),
        search_by_sensory_preferences qf kws b' (some pos) n' =
          search_by_sensory_preferences qf kws b' none n') := by
  constructor
  · intro hknown d hd
    have hmem := sensory_mem_filters qf kws b (some pos) n docs h d hd
    exact positionPass_known pos d.metadata hknown hmem.2
  · intro hunknown b' n'
    have hpp : positionPass (some pos) = positionPass none := by
      funext md
      rw [positionPass_unknown pos hunknown md]
      rfl
    unfold search_by_sensory_preferences
    rw [hpp]

/-- Witness for C7 at position `"guard"` against a guard-tagged catalog. -/
theorem c7_position_filter_passes_open_witness :
    (search_by_sensory_preferences wShoeStore ["그립"] none (some "guard") 10).1 =
      Except.ok [Doc.mk "shoe1" guardMeta] ∧
    (((pyLower "guard" = "guard" ∨ pyLower "guard" = "forward" ∨
        pyLower "guard" = "center") →
      ∀ d ∈ [Doc.mk "shoe1" guardMeta],
        ∃ t ∈ pySplitComma (d.metadata.getStrD "tags" ""),
          pyStrip t ∈ positionTagKeywords (pyLower "guard")) ∧
     (¬(pyLower "guard" = "guard" ∨ pyLower "guard" = "forward" ∨
        pyLower "guard" = "center") →
      ∀ (b' : Option Int) (n' : Nat),
        search_by_sensory_preferences wShoeStore ["그립"] b' (some "guard") n' =
          search_by_sensory_preferences wShoeStore ["그립"] b' none n')) :=
  ⟨by rfl,
    c7_position_filter_passes_open wShoeStore ["그립"] none "guard" 10
      [Doc.mk "shoe1" guardMeta] (by rfl)⟩

/-- **C1 counterexample.** The claim "every candidate whose price field is
non-numeric or missing is dropped (fail-closed); a ceiling of 1 against a
non-empty catalog yields an empty shoe list" is false: with ceiling 1 against
a non-empty catalog whose single candidate has **no** `price_krw` field, the
candidate is returned — `int(metadata.get("price_krw", 0))` reads a missing
price as `0`, which never exceeds a positive ceiling. -/
theorem c1_missing_price_not_dropped :
    (search_by_sensory_preferences noPriceStore ["쫀득한 접지"] (some 1) none 10).1 =
      Except.ok [Doc.mk "nike shoe" noPriceMeta] ∧
    List.lookup "price_krw" noPriceMeta = none ∧
    [Doc.mk "nike shoe" noPriceMeta] ≠ ([] : List Doc) :=
  ⟨by rfl, by rfl, by decide⟩

/-- **C1 (amended).** For every call to `search_by_sensory_preferences` with a
truthy budget ceiling `b` supplied: every returned candidate's stored price —
with a missing `price_krw` field read as the integer `0` — parses as an
integer `≤ b` (so a candidate whose **present** price field is non-numeric is
dropped); if every candidate the store returns has a parsed price exceeding
`b` (e.g. a ceiling of 1 against a catalog of prices above 1), the returned
shoe list is empty; and every shoe returned by `cross_analysis_search` under
the same ceiling satisfies the same price bound. -/
theorem c1_budget_filter_amended (qf : QueryFn) (kws : List String)
    (pos : Option String) (n : Nat) (b : Int) (hb : b ≠ 0) (docs : List Doc)
    (h : (search_by_sensory_preferences qf kws (some b) pos n).1 = Except.ok docs) :
    (∀ d ∈ docs, ∃ p : Int,
        pyInt? (d.metadata.getD "price_krw" (MVal.int 0)) = some p ∧ p ≤ b) ∧
    (∀ r : QueryResult,
        qf [pyStrip (pyJoinSpace kws)] n none = Except.ok r →
        (∀ cm ∈ (r.documents.headD []).zip (r.metadatas.headD []),
          ∀ p : Int,
            pyInt? ((cm : String × Metadata).2.getD "price_krw" (MVal.int 0)) =
              some p → b < p) →
        docs = []) ∧
    (∀ (qp : QueryFn) (pa : Option String) (n_shoes : Nat)
        (m : List (String × List Doc)),
        (cross_analysis_search qf qp kws pa (some b) pos n_shoes).1 = Except.ok m →
        ∀ ds : List Doc, ("shoes", ds) ∈ m → ∀ d ∈ ds, ∃ p : Int,
          pyInt? (d.metadata.getD "price_krw" (MVal.int 0)) = some p ∧ p ≤ b) := by
  refine ⟨?_, ?_, ?_⟩
  · intro d hd
    exact budgetPass_some b hb d.metadata
      (sensory_mem_filters qf kws (some b) pos n docs h d hd).1
  · intro r hr hall
    rcases sensory_ok_decomp qf kws (some b) pos n docs h with hnil | ⟨r', hr', hdocs⟩
    · exact hnil
    · rw [hr] at hr'
      cases hr'
      rw [hdocs]
      rw [List.map_eq_nil_iff]
      rw [List.filter_eq_nil_iff]
      intro cm hcm
      have hfail : budgetPass (some b) cm.2 = false := by
        simp only [budgetPass]
        rw [if_neg hb]
        split
        · rfl
        · rename_i p hp
          have := hall cm hcm p hp
          simp
          omega
      simp [hfail]
  · intro qp pa n_shoes m hm ds hds d hd
    obtain ⟨pool, l, players, hpool, hperm, hmeq, -⟩ :=
      cross_ok_decomp qf qp kws pa (some b) pos n_shoes m hm
    subst hmeq
    have hdsl : ds = l.take n_shoes := by
      simp only [List.mem_cons, List.not_mem_nil, or_false, Prod.mk.injEq] at hds
      rcases hds with ⟨-, hds⟩ | ⟨hbad, -⟩
      · exact hds
      · exact absurd hbad (by decide)
    subst hdsl
    have hdpool : d ∈ pool := hperm.mem_iff.mp (List.mem_of_mem_take hd)
    exact budgetPass_some b hb d.metadata
      (sensory_mem_filters qf kws (some b) pos 15 pool hpool d hdpool).1

/-- Witness for the amended C1 at a concrete priced catalog and ceiling. -/
theorem c1_budget_filter_amended_witness :
    (200000 : Int) ≠ 0 ∧
    (search_by_sensory_preferences pricedStore ["그립"] (some 200000) none 10).1 =
      Except.ok [Doc.mk "shoe1" pricedMeta] ∧
    ((∀ d ∈ [Doc.mk "shoe1" pricedMeta], ∃ p : Int,
        pyInt? (d.metadata.getD "price_krw" (MVal.int 0)) = some p ∧ p ≤ 200000) ∧
     (∀ r : QueryResult,
        pricedStore [pyStrip (pyJoinSpace ["그립"])] 10 none = Except.ok r →
        (∀ cm ∈ (r.documents.headD []).zip (r.metadatas.headD []),
          ∀ p : Int,
            pyInt? ((cm : String × Metadata).2.getD "price_krw" (MVal.int 0)) =
              some p → 200000 < p) →
        [Doc.mk "shoe1" pricedMeta] = []) ∧
     (∀ (qp : QueryFn) (pa : Option String) (n_shoes : Nat)
        (m : List (String × List Doc)),
        (cross_analysis_search pricedStore qp ["그립"] pa (some 200000) none
          n_shoes).1 = Except.ok m →
        ∀ ds : List Doc, ("shoes", ds) ∈ m → ∀ d ∈ ds, ∃ p : Int,
          pyInt? (d.metadata.getD "price_krw" (MVal.int 0)) = some p ∧
            p ≤ 200000)) :=
  ⟨by decide, by rfl,
    c1_budget_filter_amended pricedStore ["그립"] none 10 200000 (by decide)
      [Doc.mk "shoe1" pricedMeta] (by rfl)⟩

/-- **C5.** Every successful `cross_analysis_search` returns a shoes sequence
of length ≤ `n_shoes` and a players sequence of length ≤ 3 (the fixed player
limit hard-coded at the archetype sub-call), and the truncation to `n_shoes`
is applied strictly after signature boosting: the returned shoes are a
`take n_shoes` of a permutation of the already-fetched 15-candidate sensory
pool, so boosting only reorders within that pool and never promotes shoes
beyond it. -/
theorem c5_cross_analysis_bounds (qs qp : QueryFn) (hqp : HonorsLimit qp)
    (kws : List String) (pa : Option String) (b : Option Int)
    (pos : Option String) (n_shoes : Nat) (m : List (String × List Doc))
    (h : (cross_analysis_search qs qp kws pa b pos n_shoes).1 = Except.ok m) :
    ∃ (pool shoes players : List Doc),
      m = [("shoes", shoes), ("players", players)] ∧
      shoes.length ≤ n_shoes ∧
      players.length ≤ 3 ∧
      (search_by_sensory_preferences qs kws b pos 15).1 = Except.ok pool ∧
      (∃ l : List Doc, l.Perm pool ∧ shoes = l.take n_shoes) ∧
      ∀ d ∈ shoes, d ∈ pool := by
  obtain ⟨pool, l, players, hpool, hperm, hmeq, hpl⟩ :=
    cross_ok_decomp qs qp kws pa b pos n_shoes m h
  refine ⟨pool, l.take n_shoes, players, hmeq, List.length_take_le n_shoes l, ?_,
    hpool, ⟨l, hperm, rfl⟩, ?_⟩
  · rcases hpl with rfl | ⟨nm, -, -, hps⟩
    · simp
    · exact player_search_len qp hqp nm 3 players hps
  · intro d hd
    exact hperm.mem_iff.mp (List.mem_of_mem_take hd)

/-- Witness for C5 at a concrete store pair (guard catalog plus a Curry
archetype whose boost applies). -/
theorem c5_cross_analysis_bounds_witness :
    (cross_analysis_search wShoeStore wPlayerStore ["그립"] (some "Stephen Curry")
        none none 5).1 =
      Except.ok [("shoes", [Doc.mk "shoe1" guardMeta]),
        ("players", [Doc.mk "curry" wPlayerMeta])] ∧
    (∃ (pool shoes players : List Doc),
      [("shoes", [Doc.mk "shoe1" guardMeta]),
        ("players", [Doc.mk "curry" wPlayerMeta])] =
        [("shoes", shoes), ("players", players)] ∧
      shoes.length ≤ 5 ∧
      players.length ≤ 3 ∧
      (search_by_sensory_preferences wShoeStore ["그립"] none none 15).1 =
        Except.ok pool ∧
      (∃ l : List Doc, l.Perm pool ∧ shoes = l.take 5) ∧
      ∀ d ∈ shoes, d ∈ pool) :=
  ⟨by rfl,
    c5_cross_analysis_bounds wShoeStore wPlayerStore
      (specStoreQuery_honors _) ["그립"] (some "Stephen Curry") none none 5
      [("shoes", [Doc.mk "shoe1" guardMeta]),
        ("players", [Doc.mk "curry" wPlayerMeta])] (by rfl)⟩

/-- **C8.** For every search operation of the retrieval core (shoe, player,
rule, glossary) with non-empty input, any failure raised by the Document Store
during the query is wrapped and re-raised as the domain-level retrieval
`ValueError`; it is never silently converted to an empty result sequence. -/
theorem c8_store_failure_wrapped (qf : QueryFn) (e : PyError)
    (hfail : ∀ qts n w, qf qts n w = Except.error e)
    (kws : List String) (hk : (kws.any fun k => !(pyStrip k == "")) = true)
    (hkq : pyStrip (pyJoinSpace kws) ≠ "")
    (nm : String) (hn : pyStrip nm ≠ "")
    (sit : String) (hs : pyStrip sit ≠ "")
    (q : String) (hq : pyStrip q ≠ "")
    (b : Option Int) (pos : Option String) (rt cat : Option String)
    (n1 n2 n3 n4 : Nat) :
    (search_by_sensory_preferences qf kws b pos n1).1 =
      Except.error (PyError.valueError "Failed to retrieve shoes from database") ∧
    (search_by_player_archetype qf nm n2).1 =
      Except.error
        (PyError.valueError "Failed to retrieve player archetypes from database") ∧
    (search_by_situation qf sit rt n3).1 =
      Except.error (PyError.valueError "Failed to retrieve rules from database") ∧
    (search_glossary_terms qf q cat n4).1 =
      Except.error
        (PyError.valueError "Failed to retrieve glossary terms from database") := by
  have hnm : nm ≠ "" := fun he => hn (by rw [he]; rfl)
  have hsit : sit ≠ "" := fun he => hs (by rw [he]; rfl)
  have hqne : q ≠ "" := fun he => hq (by rw [he]; rfl)
  refine ⟨?_, ?_, ?_, ?_⟩
  · have hne : kws.isEmpty = false := by
      rcases List.any_eq_true.mp hk with ⟨k, hkmem, -⟩
      cases kws
      · cases hkmem
      · rfl
    unfold search_by_sensory_preferences
    rw [if_neg (by simp [hne, hk])]
    dsimp only
    rw [if_neg hkq, hfail]
  · unfold search_by_player_archetype
    rw [if_neg (by simp [hnm, hn]), hfail]
  · unfold search_by_situation
    rw [if_neg (by simp [hsit, hs]), hfail]
  · unfold search_glossary_terms
    rw [if_neg (by simp [hqne, hq]), hfail]

/-- Witness for C8 against a store whose every query raises. -/
theorem c8_store_failure_wrapped_witness :
    (∀ qts n w, failingStore qts n w =
      Except.error (PyError.storeError "connection refused")) ∧
    ((["그립"].any fun k => !(pyStrip k == "")) = true) ∧
    pyStrip (pyJoinSpace ["그립"]) ≠ "" ∧
    pyStrip "Stephen Curry" ≠ "" ∧ pyStrip "트래블링" ≠ "" ∧ pyStrip "용어" ≠ "" ∧
    ((search_by_sensory_preferences failingStore ["그립"] (some 250000) none 10).1 =
        Except.error (PyError.valueError "Failed to retrieve shoes from database") ∧
      (search_by_player_archetype failingStore "Stephen Curry" 3).1 =
        Except.error
          (PyError.valueError "Failed to retrieve player archetypes from database") ∧
      (search_by_situation failingStore "트래블링" (some "FIBA") 5).1 =
        Except.error (PyError.valueError "Failed to retrieve rules from database") ∧
      (search_glossary_terms failingStore "용어" none 3).1 =
        Except.error
          (PyError.valueError "Failed to retrieve glossary terms from database")) :=
  ⟨fun _ _ _ => rfl, by decide, by decide, by decide, by decide, by decide,
    c8_store_failure_wrapped failingStore (PyError.storeError "connection refused")
      (fun _ _ _ => rfl) ["그립"] (by decide) (by decide) "Stephen Curry" (by decide)
      "트래블링" (by decide) "용어" (by decide) (some 250000) none (some "FIBA") none
      10 3 5 3⟩

/-- **C9.** For every call to `hybrid_search`: a retrieval failure raised by
either the rules sub-search or the glossary sub-search makes the whole hybrid
call raise that failure (no partial result); and whenever `hybrid_search`
returns normally its result dictionary contains both the `"rules"` key and the
`"glossary"` key (each a possibly empty sequence), never omitting either. -/
theorem c9_hybrid_all_or_nothing (qr qg : QueryFn) (sit : String)
    (rt : Option String) (nr ng : Nat) :
    (∀ e : PyError, (search_by_situation qr sit rt nr).1 = Except.error e →
      (hybrid_search qr qg sit rt nr ng).1 = Except.error e) ∧
    (∀ (rules : List Doc) (e : PyError),
      (search_by_situation qr sit rt nr).1 = Except.ok rules →
      (search_glossary_terms qg sit none ng).1 = Except.error e →
      (hybrid_search qr qg sit rt nr ng).1 = Except.error e) ∧
    (∀ m : List (String × List Doc),
      (hybrid_search qr qg sit rt nr ng).1 = Except.ok m →
      ∃ (rules glossary : List Doc),
        m = [("rules", rules), ("glossary", glossary)] ∧
        List.lookup "rules" m = some rules ∧
        List.lookup "glossary" m = some glossary) := by
  rcases h1 : search_by_situation qr sit rt nr with ⟨es, c1⟩
  cases es with
  | error e1 =>
      have hh : hybrid_search qr qg sit rt nr ng = (Except.error e1, c1) := by
        unfold hybrid_search
        rw [h1]
      refine ⟨?_, ?_, ?_⟩
      · intro e he
        simp only at he
        cases he
        rw [hh]
      · intro rules e hok herr
        simp only at hok
        cases hok
      · intro m hm
        rw [hh] at hm
        simp only at hm
        cases hm
  | ok rules1 =>
      rcases h2 : search_glossary_terms qg sit none ng with ⟨eg, c2⟩
      cases eg with
      | error e2 =>
          have hh : hybrid_search qr qg sit rt nr ng = (Except.error e2, c1 + c2) := by
            unfold hybrid_search
            rw [h1, h2]
          refine ⟨?_, ?_, ?_⟩
          · intro e he
            simp only at he
            cases he
          · intro rules e hok herr
            simp only at herr
            cases herr
            rw [hh]
          · intro m hm
            rw [hh] at hm
            simp only at hm
            cases hm
      | ok gl =>
          have hh : hybrid_search qr qg sit rt nr ng =
              (Except.ok [("rules", rules1), ("glossary", gl)], c1 + c2) := by
            unfold hybrid_search
            rw [h1, h2]
          refine ⟨?_, ?_, ?_⟩
          · intro e he
            simp only at he
            cases he
          · intro rules e hok herr
            simp only at herr
            cases herr
          · intro m hm
            rw [hh] at hm
            simp only at hm
            cases hm
            exact ⟨rules1, gl, rfl, rfl, rfl⟩

/-- Witness for C9: with the repository's wiring (no `query_rules` on the
manager) and a non-empty situation, the rules sub-search raises and the whole
hybrid call raises the same failure. -/
theorem c9_hybrid_all_or_nothing_witness :
    (hybrid_search chromaQueryRules chromaQueryGlossary "트래블링" none 5 3).1 =
      Except.error (PyError.valueError "Failed to retrieve rules from database") :=
  (c9_hybrid_all_or_nothing chromaQueryRules chromaQueryGlossary "트래블링"
      none 5 3).1
    (PyError.valueError "Failed to retrieve rules from database") (by rfl)

end Assist
